import Mathlib

/-!
Verification of the Locktopus TypeScript client (`src/client.ts`,
`src/constants.ts`, `src/types.ts`).

The client is a session engine over a websocket: it keeps a FIFO queue of
decoded server responses (`responseQueue`), a latched transport error
(`wsError`), the protocol state (`_currentState`) and the current lock id
(`_lockId`).  Public operations (`close`, `lock`, `acquire`, `release`) are
awaited sequentially, so each operation is embedded as a pure function from
the client state to an outcome, the updated state, and a trace of transport
outputs (messages sent and close frames).  Messages that have arrived (or
will arrive while the operation waits) are represented by the contents of
`responseQueue`; an operation that would wait forever because no message
ever arrives is `Outcome.blocked`.

`src/client.ts` contains the `GearlockClient` engine; the repository's
final `LocktopusClient` (referenced by the tests and by
`types.ts`/`constants.ts` via `CLIENT_STATE` and the `released` wake-up
payload) differs in a few documented ways; those parts are modelled from
the spec and marked as such below.
-/

namespace Locktopus

/-- `ACTION` enum from constants.ts. -/
inductive ACTION where
  | lock
  | release
deriving DecidableEq, Repr

/-- The string value of each `ACTION` enum member in constants.ts. -/
def ACTION.str : ACTION → String
  | .lock => "lock"
  | .release => "release"

/-- `STATE` enum from constants.ts (the variant used by client.ts). -/
inductive STATE where
  | ready
  | enqueued
  | acquired
deriving DecidableEq, Repr

/-- The string value of each `STATE` enum member in constants.ts. -/
def STATE.str : STATE → String
  | .ready => "ready"
  | .enqueued => "enqueued"
  | .acquired => "acquired"

/-- `LOCK_TYPE` enum from constants.ts. -/
inductive LOCK_TYPE where
  | read
  | write
deriving DecidableEq, Repr

/-- `Resource` from types.ts: a lock type and a hierarchical path. -/
structure Resource where
  type : LOCK_TYPE
  path : List String
deriving DecidableEq, Repr

/-- `ResponseMessage` from types.ts: `{ id, action, state }`. -/
structure ResponseMessage where
  id : String
  action : ACTION
  state : STATE
deriving DecidableEq, Repr

/-- `RequestMessage` from types.ts: an action and an optional resource
list (absent is embedded as `[]`, matching the JSON the client sends for
`release`). -/
structure RequestMessage where
  action : ACTION
  Resources : List Resource := []
deriving DecidableEq, Repr

/-- close codes from constants.ts. -/
def WS_NORMAL_CLOSE : Nat := 1000

/-- The distinguished abnormal close code from constants.ts, used by
`raiseProtocolError`. -/
def WS_ABNORMAL_CLOSE : Nat := 3000

/-- The error kinds the client can raise.  In the TypeScript source every
throw site builds a plain `Error(msg)`; the constructor records which
throw site fired, following the taxonomy of the spec (§7): `checkError`'s
"Not initialised" throw, the latched transport error rethrow, local
precondition failures, and `raiseProtocolError`. -/
inductive ClientError where
  | notInitialised (msg : String)
  | transportError (msg : String)
  | usageError (msg : String)
  | protocolError (msg : String)
deriving DecidableEq, Repr

/-- Result of running one client operation: a value, a raised error, or a
wait that no message ever satisfies. -/
inductive Outcome (α : Type) where
  | ok (val : α)
  | err (e : ClientError)
  | blocked
deriving DecidableEq, Repr

/-- Whether a client error is a protocol violation (the kind raised by
`raiseProtocolError`). -/
def ClientError.isProtocol : ClientError → Bool
  | .protocolError _ => true
  | _ => false

/-- Whether an outcome is a raised protocol violation. -/
def Outcome.isProtocolViolation : Outcome α → Bool
  | .err e => e.isProtocol
  | _ => false

/-- Observable transport outputs of one operation: `ws.send` of an encoded
request, `ws.close(code)`, and (final client only, see `releaseFinal`)
the local `released` wake-up signal. -/
inductive Output where
  | send (msg : RequestMessage)
  | wsClose (code : Nat)
  | emitReleased
deriving DecidableEq, Repr

/-- The mutable state of a `GearlockClient` instance (client.ts):
`responseQueue`, whether `ws` is set (`wsInitialised`), the latched
`wsError` (kept as its message), `_currentState` (initialised to
`STATE.READY`) and `_lockId`. -/
structure GearlockClient where
  responseQueue : List ResponseMessage
  wsInitialised : Bool
  wsError : Option String
  currentState : STATE
  lockId : Option String
deriving DecidableEq, Repr

/-- `checkError` from client.ts: throws "Not initialised" when `ws` is
unset, otherwise rethrows the latched `wsError` when present. -/
def checkError (c : GearlockClient) : Option ClientError :=
  if ! c.wsInitialised then
    some (.notInitialised "Not initialised")
  else
    c.wsError.map .transportError

/-- Result of one public operation: outcome, updated client state, trace
of transport outputs in order. -/
structure OpResult (α : Type) where
  out : Outcome α
  st : GearlockClient
  trace : List Output
deriving DecidableEq, Repr

/-- `readResponse` from client.ts: `checkError`, then shift the head of
`responseQueue`; when the queue is empty the source awaits the next-message
signal — in this sequential embedding the messages that will arrive are
already in `responseQueue`, so an empty queue means the wait never ends
(`blocked`). -/
def readResponse (c : GearlockClient) : Outcome ResponseMessage × GearlockClient :=
  match checkError c with
  | some e => (.err e, c)
  | none =>
    match c.responseQueue with
    | [] => (.blocked, c)
    | m :: rest => (.ok m, { c with responseQueue := rest })

/-- `doRequest` from client.ts: `checkError`, `sendRequest(msg)`,
`readResponse` (the source repeats `checkError` after the read; no field it
consults changes in between, so the repeat is absorbed). -/
def doRequest (c : GearlockClient) (msg : RequestMessage) : OpResult ResponseMessage :=
  match checkError c with
  | some e => ⟨.err e, c, []⟩
  | none =>
    match readResponse c with
    | (.ok r, c1) => ⟨.ok r, c1, [.send msg]⟩
    | (.err e, c1) => ⟨.err e, c1, [.send msg]⟩
    | (.blocked, c1) => ⟨.blocked, c1, [.send msg]⟩

/-- `raiseProtocolError` from client.ts: `ws.close(WS_ABNORMAL_CLOSE)`
then throw; `pre` is the trace accumulated before the violation. -/
def raiseProtocolError (c : GearlockClient) (pre : List Output) (msg : String) :
    OpResult α :=
  ⟨.err (.protocolError msg), c, pre ++ [.wsClose WS_ABNORMAL_CLOSE]⟩

/-- The `this._lockId != null && response.id !== this._lockId` test used
by `acquire` and (as its last check) `release` in client.ts. -/
def lockIdMismatch (lockId : Option String) (rid : String) : Bool :=
  match lockId with
  | some lid => rid != lid
  | none => false

/-- `close` from client.ts: `checkError`, then `ws.close(WS_NORMAL_CLOSE)`.
No session field is reset. -/
def close (c : GearlockClient) : OpResult Unit :=
  match checkError c with
  | some e => ⟨.err e, c, []⟩
  | none => ⟨.ok (), c, [.wsClose WS_NORMAL_CLOSE]⟩

/-- `getState` from client.ts: returns `_currentState`; performs no check
at all. -/
def getState (c : GearlockClient) : Except ClientError STATE :=
  .ok c.currentState

/-- `isAcquired` from client.ts: throws "Not initialised" when `ws` is
unset (it does not consult `wsError`), else compares the state. -/
def isAcquired (c : GearlockClient) : Except ClientError Bool :=
  if ! c.wsInitialised then .error (.notInitialised "Not initialised")
  else .ok (c.currentState == .acquired)

/-- `getLockId` from client.ts: throws "Not initialised" when `ws` is
unset (it does not consult `wsError`), else returns `_lockId`. -/
def getLockId (c : GearlockClient) : Except ClientError (Option String) :=
  if ! c.wsInitialised then .error (.notInitialised "Not initialised")
  else .ok c.lockId

/-- `lock` from client.ts: `checkError`; local precondition checks (at
least one resource, state READY); send a LOCK request and read the
response; the response must have `action = LOCK` and a state other than
READY (the violation message's "Expected:" text reproduces the source
verbatim, including its copy-paste of `STATE.READY`); on success record
state and lock id.  The Boolean return value — whether the lock was
granted immediately — is Modelled from the spec (§4.2, §6): the final
`LocktopusClient` (missing from src/) returns `acquired:boolean`, while
the `GearlockClient` in src/ returns void. -/
def lock (c : GearlockClient) (resources : List Resource) : OpResult Bool :=
  match checkError c with
  | some e => ⟨.err e, c, []⟩
  | none =>
    if resources.length = 0 then
      ⟨.err (.usageError "No resources provided"), c, []⟩
    else if c.currentState != .ready then
      ⟨.err (.usageError ("Cannot lock in current state: " ++ c.currentState.str)), c, []⟩
    else
      let msg : RequestMessage := { action := .lock, Resources := resources }
      let dr := doRequest c msg
      match dr.out with
      | .err e => ⟨.err e, dr.st, dr.trace⟩
      | .blocked => ⟨.blocked, dr.st, dr.trace⟩
      | .ok response =>
        if response.action != .lock then
          raiseProtocolError dr.st dr.trace
            ("Unexpected response action: " ++ response.action.str ++
              ". Expected: " ++ ACTION.lock.str)
        else if response.state == .ready then
          raiseProtocolError dr.st dr.trace
            ("Unexpected response state: " ++ response.state.str ++
              ". Expected: " ++ STATE.ready.str)
        else
          ⟨.ok (response.state == .acquired),
            { dr.st with currentState := response.state, lockId := some response.id },
            dr.trace⟩

/-- `acquire` from client.ts: `checkError`; return immediately when
already ACQUIRED; otherwise read the next message, which must be a LOCK
response with state ACQUIRED and, when `_lockId` is set, a matching id;
on success record state and lock id.  The Boolean return value is
Modelled from the spec (§4.3, §6): the final `LocktopusClient` (missing
from src/) returns `acquired:boolean` (true on this path), while the
`GearlockClient` in src/ returns void. -/
def acquire (c : GearlockClient) : OpResult Bool :=
  match checkError c with
  | some e => ⟨.err e, c, []⟩
  | none =>
    if c.currentState == .acquired then
      ⟨.ok true, c, []⟩
    else
      match readResponse c with
      | (.err e, c1) => ⟨.err e, c1, []⟩
      | (.blocked, c1) => ⟨.blocked, c1, []⟩
      | (.ok response, c1) =>
        if response.action != .lock then
          raiseProtocolError c1 []
            ("Unexpected response action: " ++ response.action.str ++
              ". Expected: " ++ ACTION.lock.str)
        else if response.state != .acquired then
          raiseProtocolError c1 []
            ("Unexpected response state: " ++ response.state.str ++
              ". Expected: " ++ STATE.acquired.str)
        else if lockIdMismatch c1.lockId response.id then
          raiseProtocolError c1 []
            ("Unexpected lock id: " ++ response.id ++
              ". Expected: " ++ c1.lockId.getD "undefined")
        else
          ⟨.ok true,
            { c1 with currentState := response.state, lockId := some response.id },
            []⟩

/-- `release` from client.ts: `checkError`; precondition (state not
READY); send a RELEASE request and read the response; when the response
is the stale ACQUIRED notification of the lock being released
(`action = LOCK`, `id === _lockId`, `state = ACQUIRED`, current state
ENQUEUED) discard it and read the next message; then validate: id must
equal `_lockId`, action must be RELEASE, state must be READY (plus the
source's repeated id check); on success record state and lock id. -/
def release (c : GearlockClient) : OpResult Unit :=
  match checkError c with
  | some e => ⟨.err e, c, []⟩
  | none =>
    if c.currentState == .ready then
      ⟨.err (.usageError ("Cannot release in current state: " ++ c.currentState.str)), c, []⟩
    else
      let msg : RequestMessage := { action := .release }
      let dr := doRequest c msg
      match dr.out with
      | .err e => ⟨.err e, dr.st, dr.trace⟩
      | .blocked => ⟨.blocked, dr.st, dr.trace⟩
      | .ok first =>
        let step2 : Outcome ResponseMessage × GearlockClient :=
          if first.action == .lock && dr.st.lockId == some first.id &&
              first.state == .acquired && dr.st.currentState == .enqueued then
            readResponse dr.st
          else
            (.ok first, dr.st)
        match step2 with
        | (.err e, c2) => ⟨.err e, c2, dr.trace⟩
        | (.blocked, c2) => ⟨.blocked, c2, dr.trace⟩
        | (.ok response, c2) =>
          if c2.lockId != some response.id then
            raiseProtocolError c2 dr.trace
              ("Unexpected lock id: " ++ response.id ++
                ". Expected: " ++ c2.lockId.getD "undefined")
          else if response.action != .release then
            raiseProtocolError c2 dr.trace
              ("Unexpected response action: " ++ response.action.str ++
                ". Expected: " ++ ACTION.release.str)
          else if response.state != .ready then
            raiseProtocolError c2 dr.trace
              ("Unexpected response state: " ++ response.state.str ++
                ". Expected: " ++ STATE.ready.str)
          else if lockIdMismatch c2.lockId response.id then
            raiseProtocolError c2 dr.trace
              ("Unexpected lock id: " ++ response.id ++
                ". Expected: " ++ c2.lockId.getD "undefined")
          else
            ⟨.ok (),
              { c2 with currentState := response.state, lockId := some response.id },
              dr.trace⟩

/-- `CLIENT_STATE` enum from constants.ts (the final variant, used by
types.ts): the session-lifecycle states of the final `LocktopusClient`. -/
inductive CLIENT_STATE where
  | connecting
  | ready
  | enqueued
  | acquired
  | not_connected
deriving DecidableEq, Repr

/-- The Session of the final `LocktopusClient`.  The state type is
`CLIENT_STATE` from constants.ts/types.ts; the remaining fields follow the
spec's Session data model (§3): `lockId`, `pendingMessages`,
`transportError`. -/
structure Session where
  state : CLIENT_STATE
  lockId : Option String
  pendingMessages : List ResponseMessage
  transportError : Option String
deriving DecidableEq, Repr

/-- Modelled from the spec: the initial Session of the final
`LocktopusClient` (its client.ts is missing from src/) — "a Session is
created in NOT_CONNECTED" (§3), with no lock id, no queued message and no
latched error. -/
def Session.initial : Session :=
  { state := .not_connected, lockId := none, pendingMessages := [], transportError := none }

/-- Modelled from the spec: `close()` of the final `LocktopusClient` (its
client.ts is missing from src/) — "requests a normal close of the
Transport … and resets the Session to its initial NOT_CONNECTED state,
discarding the pending-message queue" and resetting `lockId`;
"idempotent if already not connected" (§4.1, §3): no close frame is sent
when the session is already NOT_CONNECTED. -/
def Session.closeSession (s : Session) : Session × List Output :=
  ({ s with state := .not_connected, lockId := none, pendingMessages := [] },
    if s.state = .not_connected then [] else [.wsClose WS_NORMAL_CLOSE])

/-- `EVENT_PAYLOAD` from types.ts (final variant): a pending wait is woken
either by the local "released" marker (`PAYLOAD_RELEASE`) or by a queued
server message (`PAYLOAD_RESPONSE`). -/
inductive EVENT_PAYLOAD where
  | released
  | response
deriving DecidableEq, Repr

/-- Modelled from the spec: what a pending `acquire()` wait of the final
`LocktopusClient` (its client.ts is missing from src/) does when woken
(§4.3): the "released" marker short-circuits the wait and `acquire`
resolves to false — no message consumed, nothing sent, no error; a
"response" wake-up proceeds as the source `acquire` on the queued
message. -/
def acquireOnWake (c : GearlockClient) (payload : EVENT_PAYLOAD) : OpResult Bool :=
  match payload with
  | .released => ⟨.ok false, c, []⟩
  | .response => acquire c

/-- Modelled from the spec: `release()` of the final `LocktopusClient`
(its client.ts is missing from src/) — "Before sending anything, it
raises the local 'released' signal so that a concurrently pending
`acquire()` is unblocked" (§4.4); after its preconditions it emits the
`released` marker and then proceeds exactly as the source `release`. -/
def releaseFinal (c : GearlockClient) : OpResult Unit :=
  match checkError c with
  | some e => ⟨.err e, c, []⟩
  | none =>
    if c.currentState == .ready then
      ⟨.err (.usageError ("Cannot release in current state: " ++ c.currentState.str)), c, []⟩
    else
      let r := release c
      ⟨r.out, r.st, .emitReleased :: r.trace⟩

/-! ### Theorems -/

/-- C1: during `release()`, when the first response read is the stale
ACQUIRED notification (action LOCK, id equal to the current lock id,
state ACQUIRED) and the session was ENQUEUED at the start of the call,
that message is discarded and the next queued message is consumed
instead; when that next message is a RELEASE response with state READY
and matching id, `release()` completes normally with state READY. -/
theorem release_discards_stale_acquired (lid : String) (rest : List ResponseMessage) :
    release { responseQueue := ⟨lid, .lock, .acquired⟩ :: ⟨lid, .release, .ready⟩ :: rest,
              wsInitialised := true, wsError := none,
              currentState := .enqueued, lockId := some lid }
      = ⟨.ok (), { responseQueue := rest, wsInitialised := true, wsError := none,
                   currentState := .ready, lockId := some lid },
         [.send { action := .release, Resources := [] }]⟩ := by
  simp [release, doRequest, readResponse, checkError, lockIdMismatch]

/-- C10: `release()` discards at most one stale ACQUIRED notification —
when the message after the skipped one is a second identical stale
ACQUIRED notification, `release()` raises a protocol violation for the
wrong action (LOCK instead of RELEASE) rather than skipping again. -/
theorem release_skips_at_most_one_stale (lid : String) (rest : List ResponseMessage) :
    release { responseQueue := ⟨lid, .lock, .acquired⟩ :: ⟨lid, .lock, .acquired⟩ :: rest,
              wsInitialised := true, wsError := none,
              currentState := .enqueued, lockId := some lid }
      = ⟨.err (.protocolError ("Unexpected response action: " ++ ACTION.lock.str ++
            ". Expected: " ++ ACTION.release.str)),
         { responseQueue := rest, wsInitialised := true, wsError := none,
           currentState := .enqueued, lockId := some lid },
         [.send { action := .release, Resources := [] }, .wsClose WS_ABNORMAL_CLOSE]⟩ := by
  simp [release, doRequest, readResponse, checkError, raiseProtocolError]

/-- C5: a newly created Session is NOT_CONNECTED with no lock id and no
queued message, and `close` resets the Session back to that initial
state, discarding all queued pending messages and resetting the lock id;
closing an already-closed Session changes nothing and sends nothing
(idempotent). -/
theorem session_initial_and_close_reset (s : Session) :
    Session.initial.state = .not_connected ∧
    Session.initial.lockId = none ∧
    Session.initial.pendingMessages = [] ∧
    s.closeSession.1.state = .not_connected ∧
    s.closeSession.1.pendingMessages = [] ∧
    s.closeSession.1.lockId = none ∧
    s.closeSession.1.closeSession = (s.closeSession.1, []) := by
  simp [Session.initial, Session.closeSession]

/-- C9: calling `acquire()` when the session is already ACQUIRED returns
true immediately, sends nothing, consumes nothing from the queue and
leaves the whole client state (state, lock id, queue) unchanged. -/
theorem acquire_idempotent_when_acquired (c : GearlockClient)
    (hinit : c.wsInitialised = true) (herr : c.wsError = none)
    (hst : c.currentState = .acquired) :
    acquire c = ⟨.ok true, c, []⟩ := by
  simp [acquire, checkError, hinit, herr, hst]

theorem acquire_idempotent_when_acquired_witness :
    acquire { responseQueue := [⟨"5", .release, .ready⟩], wsInitialised := true,
              wsError := none, currentState := .acquired, lockId := some "5" }
      = ⟨.ok true, { responseQueue := [⟨"5", .release, .ready⟩], wsInitialised := true,
                     wsError := none, currentState := .acquired, lockId := some "5" }, []⟩ :=
  acquire_idempotent_when_acquired _ rfl rfl rfl

/-- C8: a `lock(resources)` call with an empty resource list or a state
other than READY (and no latched transport error, which the source
checks even earlier) fails with a local usage error, sends no message,
and leaves the client state — including state and lock id — unchanged. -/
theorem lock_precondition_usage_error (c : GearlockClient) (resources : List Resource)
    (hinit : c.wsInitialised = true) (herr : c.wsError = none)
    (h : resources = [] ∨ c.currentState ≠ .ready) :
    (∃ m, (lock c resources).out = .err (.usageError m)) ∧
    (lock c resources).st = c ∧
    (lock c resources).trace = [] := by
  by_cases hr : resources.length = 0
  · simp [lock, checkError, hinit, herr, hr]
  · have hne : c.currentState ≠ .ready := by
      rcases h with h | h
      · exact absurd (by simp [h]) hr
      · exact h
    have hb : (c.currentState != STATE.ready) = true := by simp [bne_iff_ne, hne]
    simp [lock, checkError, hinit, herr, hr, hb]

theorem lock_precondition_usage_error_witness :
    (∃ m, (lock { responseQueue := [], wsInitialised := true, wsError := none,
                  currentState := .ready, lockId := none } []).out = .err (.usageError m)) ∧
    (lock { responseQueue := [], wsInitialised := true, wsError := none,
            currentState := .ready, lockId := none } []).st
      = { responseQueue := [], wsInitialised := true, wsError := none,
          currentState := .ready, lockId := none } ∧
    (lock { responseQueue := [], wsInitialised := true, wsError := none,
            currentState := .ready, lockId := none } []).trace = [] :=
  lock_precondition_usage_error _ [] rfl rfl (Or.inl rfl)

/-- C6 (amended): once a transport error has latched into `wsError`,
every subsequent mutating operation — `close`, `lock`, `acquire`,
`release` — fails immediately with that same latched error, before
sending anything or changing any state; the read-only accessors do not
consult the latch (see the counterexample theorem). -/
theorem latched_error_fails_operations (c : GearlockClient) (e : String)
    (hinit : c.wsInitialised = true) (herr : c.wsError = some e) :
    close c = ⟨.err (.transportError e), c, []⟩ ∧
    (∀ resources, lock c resources = ⟨.err (.transportError e), c, []⟩) ∧
    acquire c = ⟨.err (.transportError e), c, []⟩ ∧
    release c = ⟨.err (.transportError e), c, []⟩ := by
  refine ⟨?_, fun resources => ?_, ?_, ?_⟩ <;>
    simp [close, lock, acquire, release, checkError, hinit, herr]

theorem latched_error_fails_operations_witness :
    release { responseQueue := [], wsInitialised := true, wsError := some "boom",
              currentState := .acquired, lockId := some "1" }
      = ⟨.err (.transportError "boom"),
         { responseQueue := [], wsInitialised := true, wsError := some "boom",
           currentState := .acquired, lockId := some "1" }, []⟩ :=
  (latched_error_fails_operations _ "boom" rfl rfl).2.2.2

/-- C6 (counterexample): a client with a latched transport error on which
the accessors still succeed — `getState`, `isAcquired` and `getLockId`
do not fail with the latched error, contradicting the claim that every
public operation, accessors included, does. -/
theorem accessors_ignore_latched_error :
    ({ responseQueue := [], wsInitialised := true, wsError := some "connection lost",
       currentState := .ready, lockId := none } : GearlockClient).wsError
        = some "connection lost" ∧
    getState { responseQueue := [], wsInitialised := true, wsError := some "connection lost",
               currentState := .ready, lockId := none } = .ok .ready ∧
    isAcquired { responseQueue := [], wsInitialised := true, wsError := some "connection lost",
                 currentState := .ready, lockId := none } = .ok false ∧
    getLockId { responseQueue := [], wsInitialised := true, wsError := some "connection lost",
                currentState := .ready, lockId := none } = .ok none :=
  ⟨rfl, rfl, rfl, rfl⟩

/-- C2: before sending its RELEASE request, `release()` (final client,
modelled from the spec) raises the local "released" signal — it is the
first entry of the operation's trace, ahead of any send — and a pending
`acquire()` woken by that signal resolves to false: no hang (not
blocked), no error thrown, nothing consumed or sent. -/
theorem release_raises_released_signal (c : GearlockClient)
    (hinit : c.wsInitialised = true) (herr : c.wsError = none)
    (hst : c.currentState ≠ .ready) :
    (releaseFinal c).trace.head? = some .emitReleased ∧
    acquireOnWake c .released = ⟨.ok false, c, []⟩ := by
  have hb : (c.currentState == STATE.ready) = false := by
    simp [hst]
  refine ⟨?_, rfl⟩
  simp [releaseFinal, checkError, hinit, herr, hb]

theorem release_raises_released_signal_witness :
    (releaseFinal { responseQueue := [], wsInitialised := true, wsError := none,
                    currentState := .enqueued, lockId := some "1" }).trace.head?
        = some .emitReleased ∧
    acquireOnWake { responseQueue := [], wsInitialised := true, wsError := none,
                    currentState := .enqueued, lockId := some "1" } .released
      = ⟨.ok false, { responseQueue := [], wsInitialised := true, wsError := none,
                      currentState := .enqueued, lockId := some "1" }, []⟩ :=
  release_raises_released_signal _ rfl rfl (by decide)

/-- `checkError` only raises the "Not initialised" error or the latched
transport error — never a protocol violation. -/
theorem checkError_not_protocol (c : GearlockClient) (e : ClientError)
    (h : checkError c = some e) : e.isProtocol = false := by
  unfold checkError at h
  split at h
  · injection h with h1
    subst h1
    rfl
  · rcases hw : c.wsError with _ | m
    · rw [hw] at h
      simp at h
    · rw [hw] at h
      simp only [Option.map_some'] at h
      injection h with h1
      subst h1
      rfl

/-- `checkError` only depends on `wsInitialised` and `wsError`, so
consuming a message from the queue does not change its result. -/
theorem checkError_set_queue (c : GearlockClient) (q : List ResponseMessage) :
    checkError { c with responseQueue := q } = checkError c := rfl

/-- Every protocol violation raised by `lock` carries an abnormal close
frame in its trace. -/
theorem lock_violation_mem_close (c : GearlockClient) (resources : List Resource) :
    (lock c resources).out.isProtocolViolation = true →
      Output.wsClose WS_ABNORMAL_CLOSE ∈ (lock c resources).trace := by
  rcases hE : checkError c with _ | e
  · rcases hQ : c.responseQueue with _ | ⟨m, rest⟩ <;>
    · simp only [lock, doRequest, readResponse, hE, hQ]
      repeat' split
      all_goals
        simp [raiseProtocolError, Outcome.isProtocolViolation, ClientError.isProtocol]
  · have he := checkError_not_protocol c e hE
    simp [lock, hE, Outcome.isProtocolViolation, he]

/-- Every protocol violation raised by `acquire` carries an abnormal
close frame in its trace. -/
theorem acquire_violation_mem_close (c : GearlockClient) :
    (acquire c).out.isProtocolViolation = true →
      Output.wsClose WS_ABNORMAL_CLOSE ∈ (acquire c).trace := by
  rcases hE : checkError c with _ | e
  · rcases hQ : c.responseQueue with _ | ⟨m, rest⟩ <;>
    · simp only [acquire, readResponse, hE, hQ]
      repeat' split
      all_goals
        simp [raiseProtocolError, Outcome.isProtocolViolation, ClientError.isProtocol]
  · have he := checkError_not_protocol c e hE
    simp [acquire, hE, Outcome.isProtocolViolation, he]

/-- Every protocol violation raised by `release` carries an abnormal
close frame in its trace. -/
theorem release_violation_mem_close (c : GearlockClient) :
    (release c).out.isProtocolViolation = true →
      Output.wsClose WS_ABNORMAL_CLOSE ∈ (release c).trace := by
  rcases hE : checkError c with _ | e
  · rcases hQ : c.responseQueue with _ | ⟨m, rest⟩
    · simp only [release, doRequest, readResponse, hE, hQ]
      repeat' split
      all_goals
        simp [raiseProtocolError, Outcome.isProtocolViolation, ClientError.isProtocol]
    · by_cases hS : (m.action == ACTION.lock && c.lockId == some m.id &&
          m.state == STATE.acquired && c.currentState == STATE.enqueued) = true
      · rcases rest with _ | ⟨m2, rest2⟩
        · simp [release, doRequest, readResponse, hE, hQ, checkError_set_queue, hS]
          repeat' split
          all_goals
            simp [raiseProtocolError, Outcome.isProtocolViolation, ClientError.isProtocol]
        · simp [release, doRequest, readResponse, hE, hQ, checkError_set_queue, hS]
          repeat' split
          all_goals
            simp [raiseProtocolError, Outcome.isProtocolViolation, ClientError.isProtocol]
      · rw [Bool.not_eq_true] at hS
        simp [release, doRequest, readResponse, hE, hQ, checkError_set_queue, hS]
        repeat' split
        all_goals
          simp [raiseProtocolError, Outcome.isProtocolViolation, ClientError.isProtocol]
  · have he := checkError_not_protocol c e hE
    simp [release, hE, Outcome.isProtocolViolation, he]

/-- C7: whenever `lock`, `acquire` or `release` detects a protocol
violation, the transport is closed with the distinguished abnormal code
and a protocol error is raised to the caller; in particular, a server
response with a mismatched id during `release()` (here: a session in
ACQUIRED whose next message carries a different id) raises a protocol
error and the transport receives the abnormal close. -/
theorem protocol_violation_closes_abnormally (c : GearlockClient) (r : ResponseMessage)
    (rest : List ResponseMessage)
    (hinit : c.wsInitialised = true) (herr : c.wsError = none)
    (hq : c.responseQueue = r :: rest) (hacq : c.currentState = .acquired)
    (hmm : c.lockId ≠ some r.id) :
    (∀ c2 resources, (lock c2 resources).out.isProtocolViolation = true →
        Output.wsClose WS_ABNORMAL_CLOSE ∈ (lock c2 resources).trace) ∧
    (∀ c2, (acquire c2).out.isProtocolViolation = true →
        Output.wsClose WS_ABNORMAL_CLOSE ∈ (acquire c2).trace) ∧
    (∀ c2, (release c2).out.isProtocolViolation = true →
        Output.wsClose WS_ABNORMAL_CLOSE ∈ (release c2).trace) ∧
    ((release c).out.isProtocolViolation = true ∧
      Output.wsClose WS_ABNORMAL_CLOSE ∈ (release c).trace) := by
  refine ⟨lock_violation_mem_close, acquire_violation_mem_close,
    release_violation_mem_close, ?_, ?_⟩
  · simp [release, doRequest, readResponse, checkError, raiseProtocolError,
      Outcome.isProtocolViolation, ClientError.isProtocol, hinit, herr, hq, hacq, hmm]
  · simp [release, doRequest, readResponse, checkError, raiseProtocolError,
      Outcome.isProtocolViolation, ClientError.isProtocol, hinit, herr, hq, hacq, hmm]

theorem protocol_violation_closes_abnormally_witness :
    (release { responseQueue := [⟨"2", .release, .ready⟩], wsInitialised := true,
               wsError := none, currentState := .acquired,
               lockId := some "1" }).out.isProtocolViolation = true ∧
    Output.wsClose WS_ABNORMAL_CLOSE ∈
      (release { responseQueue := [⟨"2", .release, .ready⟩], wsInitialised := true,
                 wsError := none, currentState := .acquired,
                 lockId := some "1" }).trace :=
  (protocol_violation_closes_abnormally _ ⟨"2", .release, .ready⟩ []
    rfl rfl rfl rfl (by decide)).2.2.2

/-- C3: a `lock(resources)` call (non-empty resources, READY state, no
latched error) whose response has action LOCK: a response with state
READY is a protocol violation; otherwise (state ENQUEUED or ACQUIRED)
the call succeeds, records the response's id as the lock id, sets the
session state to the response's state, and returns true exactly when the
lock was granted immediately (state ACQUIRED). -/
theorem lock_response_contract (c : GearlockClient) (r : ResponseMessage)
    (rest : List ResponseMessage) (resources : List Resource)
    (hinit : c.wsInitialised = true) (herr : c.wsError = none)
    (hres : resources ≠ []) (hst : c.currentState = .ready)
    (hq : c.responseQueue = r :: rest) (hact : r.action = .lock) :
    (r.state = .ready → (lock c resources).out.isProtocolViolation = true) ∧
    (r.state ≠ .ready →
      lock c resources = ⟨.ok (r.state == .acquired),
        { c with responseQueue := rest, currentState := r.state, lockId := some r.id },
        [.send { action := .lock, Resources := resources }]⟩) := by
  have hlen : ¬ resources.length = 0 := by
    simp [List.length_eq_zero, hres]
  constructor
  · intro hready
    simp [lock, doRequest, readResponse, checkError, raiseProtocolError,
      Outcome.isProtocolViolation, ClientError.isProtocol, hinit, herr, hst, hq,
      hact, hready, hlen]
  · intro hready
    have h1 : (r.state == STATE.ready) = false := by
      simp [hready]
    simp [lock, doRequest, readResponse, checkError, hinit, herr, hst, hq, hact, h1, hlen]

theorem lock_response_contract_witness :
    lock { responseQueue := [⟨"7", .lock, .acquired⟩], wsInitialised := true,
           wsError := none, currentState := .ready, lockId := none }
        [⟨.write, ["a"]⟩]
      = ⟨.ok true,
         { responseQueue := [], wsInitialised := true, wsError := none,
           currentState := .acquired, lockId := some "7" },
         [.send { action := .lock, Resources := [⟨.write, ["a"]⟩] }]⟩ :=
  (lock_response_contract _ ⟨"7", .lock, .acquired⟩ [] [⟨.write, ["a"]⟩]
    rfl rfl (by decide) rfl rfl rfl).2 (by decide)

/-- C4: an `acquire()` call that waits and receives a message (state not
ACQUIRED, no latched error, a message queued): the message must be a
LOCK response with state ACQUIRED and — when the session's lock id is
already set — a matching id; any mismatch of action, state or id is a
protocol violation; on success `acquire` records the response's state
and id and returns true. -/
theorem acquire_message_contract (c : GearlockClient) (r : ResponseMessage)
    (rest : List ResponseMessage)
    (hinit : c.wsInitialised = true) (herr : c.wsError = none)
    (hst : c.currentState ≠ .acquired) (hq : c.responseQueue = r :: rest) :
    ((r.action = .lock ∧ r.state = .acquired ∧ lockIdMismatch c.lockId r.id = false) →
      acquire c = ⟨.ok true,
        { c with responseQueue := rest, currentState := .acquired, lockId := some r.id },
        []⟩) ∧
    ((r.action ≠ .lock ∨ r.state ≠ .acquired ∨ lockIdMismatch c.lockId r.id = true) →
      (acquire c).out.isProtocolViolation = true) := by
  have hb : (c.currentState == STATE.acquired) = false := by
    simp [hst]
  constructor
  · rintro ⟨ha, hs, hid⟩
    simp [acquire, readResponse, checkError, hinit, herr, hb, hq, ha, hs, hid]
  · rintro (h | h | h)
    · have h1 : (r.action != ACTION.lock) = true := by
        simp [bne_iff_ne, h]
      simp [acquire, readResponse, checkError, raiseProtocolError,
        Outcome.isProtocolViolation, ClientError.isProtocol, hinit, herr, hb, hq, h1]
    · have h1 : (r.state != STATE.acquired) = true := by
        simp [bne_iff_ne, h]
      by_cases h0 : r.action = .lock
      · simp [acquire, readResponse, checkError, raiseProtocolError,
          Outcome.isProtocolViolation, ClientError.isProtocol, hinit, herr, hb, hq, h0, h1]
      · have h2 : (r.action != ACTION.lock) = true := by
          simp [bne_iff_ne, h0]
        simp [acquire, readResponse, checkError, raiseProtocolError,
          Outcome.isProtocolViolation, ClientError.isProtocol, hinit, herr, hb, hq, h2]
    · by_cases h0 : r.action = .lock
      · by_cases h2 : r.state = .acquired
        · simp [acquire, readResponse, checkError, raiseProtocolError,
            Outcome.isProtocolViolation, ClientError.isProtocol, hinit, herr, hb, hq, h0, h2, h]
        · have h3 : (r.state != STATE.acquired) = true := by
            simp [bne_iff_ne, h2]
          simp [acquire, readResponse, checkError, raiseProtocolError,
            Outcome.isProtocolViolation, ClientError.isProtocol, hinit, herr, hb, hq, h0, h3]
      · have h2 : (r.action != ACTION.lock) = true := by
          simp [bne_iff_ne, h0]
        simp [acquire, readResponse, checkError, raiseProtocolError,
          Outcome.isProtocolViolation, ClientError.isProtocol, hinit, herr, hb, hq, h2]

theorem acquire_message_contract_witness :
    acquire { responseQueue := [⟨"7", .lock, .acquired⟩], wsInitialised := true,
              wsError := none, currentState := .enqueued, lockId := some "7" }
      = ⟨.ok true,
         { responseQueue := [], wsInitialised := true, wsError := none,
           currentState := .acquired, lockId := some "7" },
         []⟩ :=
  (acquire_message_contract _ ⟨"7", .lock, .acquired⟩ [] rfl rfl (by decide) rfl).1
    ⟨rfl, rfl, by decide⟩

end Locktopus
